import Mathlib

/-!
Verification development for a faceted-object composition framework
(Rust source: `src/rust/src/main.rs`).

The framework stores one fixed core payload plus a map from runtime type
identity (`TypeId`) to a type-erased facet (`Box<dyn Facet>`), guarded by a
reader-writer lock. We embed it shallowly:

* The closed set of facet types of the program (`AccountFacet`, `AuditFacet`,
  `PermissionFacet`) becomes the enumeration `FacetTy`, playing the role of
  `TypeId`; the type-erased value `Box<dyn Facet>` becomes the dependent pair
  `FacetVal := Σ t, FacetData t`, and Rust's `downcast_ref`/`downcast_mut`
  becomes `downcastF`, an explicit tag comparison.
* The `HashMap<TypeId, Box<dyn Facet>>` becomes `FacetMap`, one optional slot
  per member of `FacetTy`.
* The `RwLock` is modelled by a `poisoned` flag on the object: when it is set,
  `read()`/`write()` return `Err`, which the source maps to an error string —
  except in `has_facet`, which calls `.unwrap()` and therefore panics; that
  panic is modelled as the `none` result of `has_facet`.
* Rust `f64` amounts are modelled as `ℚ`; `SystemTime::now()` is modelled by
  an explicit `now : Nat` argument threaded to the logging call.
* A Rust method that mutates `self` and returns `Result<A, String>` becomes a
  Lean function returning the new state paired with `Except String A`.
-/

/-- Employee core payload (struct `Employee`). -/
structure Employee where
  name : String
  id : String
  department : String
deriving DecidableEq, Repr

/-- Account facet (struct `AccountFacet`): balance (an `f64`, modelled as `ℚ`)
and an account number. -/
structure AccountFacet where
  balance : ℚ
  account_number : String
deriving DecidableEq, Repr

/-- Audit entry (struct `AuditEntry`): `SystemTime` timestamp modelled as a
`Nat`. -/
structure AuditEntry where
  timestamp : Nat
  operation : String
  details : String
deriving DecidableEq, Repr

/-- Audit facet (struct `AuditFacet`): an append-only list of entries. -/
structure AuditFacet where
  entries : List AuditEntry
deriving DecidableEq, Repr

/-- Permission facet (struct `PermissionFacet`): `HashMap<String, bool>`
modelled as an association list where `insert` conses a binding and `get`
takes the most recent binding, matching the map's replace-on-insert
semantics observationally. -/
structure PermissionFacet where
  permissions : List (String × Bool)
  role : String
deriving DecidableEq, Repr

/-- Runtime type identity of the program's facet types (the `TypeId` values
that can occur as keys of the facet map). -/
inductive FacetTy where
  | account
  | audit
  | permission
deriving DecidableEq, Repr

/-- Payload type carried by each facet type identity. -/
@[reducible] def FacetData : FacetTy → Type
  | FacetTy.account => AccountFacet
  | FacetTy.audit => AuditFacet
  | FacetTy.permission => PermissionFacet

/-- Type-erased facet value (`Box<dyn Facet>`): a payload tagged with its
runtime type identity. -/
abbrev FacetVal := Σ t : FacetTy, FacetData t

/-- Runtime type identity of the program's possible core payload types
(`TypeId` of the type inside `Box<dyn Any>`). `Employee` is the type the
program uses; the other members witness the behaviour on payloads of any
other static type. -/
inductive CoreTy where
  | employeeTy
  | textTy
  | natTy
deriving DecidableEq, Repr

/-- Payload type carried by each core type identity. -/
@[reducible] def CoreData : CoreTy → Type
  | CoreTy.employeeTy => Employee
  | CoreTy.textTy => String
  | CoreTy.natTy => Nat

/-- Type-erased core payload (`Box<dyn Any + Send + Sync>`). -/
abbrev CoreVal := Σ t : CoreTy, CoreData t

/-- The `HashMap<TypeId, Box<dyn Facet>>`: one optional slot per facet type
identity. -/
structure FacetMap where
  accountSlot : Option FacetVal
  auditSlot : Option FacetVal
  permissionSlot : Option FacetVal

/-- Lookup of the slot keyed by a type identity (`HashMap::get`). -/
def getSlot : FacetTy → FacetMap → Option FacetVal
  | FacetTy.account, m => m.accountSlot
  | FacetTy.audit, m => m.auditSlot
  | FacetTy.permission, m => m.permissionSlot

/-- Store a value under a type identity (`HashMap::insert`). -/
def setSlot : FacetTy → FacetVal → FacetMap → FacetMap
  | FacetTy.account, v, m => { m with accountSlot := some v }
  | FacetTy.audit, v, m => { m with auditSlot := some v }
  | FacetTy.permission, v, m => { m with permissionSlot := some v }

/-- Downcast of a type-erased facet to the statically requested type
(`facet.as_any().downcast_ref::<F>()`): succeeds exactly when the stored
tag equals the requested identity. -/
def downcastF (F : FacetTy) (v : FacetVal) : Option (FacetData F) :=
  if h : v.1 = F then some (h ▸ v.2) else none

/-- Faceted object (struct `FacetedObject`): the guarded facet map plus the
fixed core payload. `poisoned` models the state of the `RwLock`: it is set
when a previous critical section panicked, making `read()`/`write()` fail. -/
structure FacetedObject where
  facets : FacetMap
  core_object : CoreVal
  poisoned : Bool

/-- Message produced by `map_err` on a failed `facets.write()`. -/
def lockWriteErr : String := "Failed to acquire write lock"

/-- Message produced by `map_err` on a failed `facets.read()`. -/
def lockReadErr : String := "Failed to acquire read lock"

/-- Message for a stored facet whose runtime type disagrees with its key. -/
def downcastErr : String := "Failed to downcast facet"

/-- Printable form of a type identity, standing in for `{:?}` on `TypeId`. -/
def tyIdStr : FacetTy → String
  | FacetTy.account => "AccountFacet"
  | FacetTy.audit => "AuditFacet"
  | FacetTy.permission => "PermissionFacet"

/-- Error message of `attach_facet` when the type is already present. -/
def alreadyAttachedMsg (t : FacetTy) : String :=
  "Facet of type " ++ tyIdStr t ++ " already attached"

/-- Error message of `with_facet`/`with_facet_mut` when the type is absent. -/
def notFoundMsg (t : FacetTy) : String :=
  "Required facet not found: " ++ tyIdStr t

/-- Constructor `FacetedObject::new`: empty facet map, healthy lock. -/
def FacetedObject.new (core : CoreVal) : FacetedObject :=
  { facets := { accountSlot := none, auditSlot := none, permissionSlot := none }
    core_object := core
    poisoned := false }

/-- Method `FacetedObject::attach_facet`: takes the write lock, fails if a
facet with the same type identity is present, otherwise inserts. Returns the
updated object together with the `Result`. -/
def FacetedObject.attach_facet (f : FacetVal) (obj : FacetedObject) :
    FacetedObject × Except String Unit :=
  if obj.poisoned then (obj, Except.error lockWriteErr)
  else if (getSlot f.1 obj.facets).isSome then
    (obj, Except.error (alreadyAttachedMsg f.1))
  else ({ obj with facets := setSlot f.1 f obj.facets }, Except.ok ())

/-- Method `FacetedObject::with_facet`: takes the read lock, looks up the
requested type identity, downcasts, and runs the read-only operation. -/
def FacetedObject.with_facet {R : Type} (F : FacetTy) (op : FacetData F → R)
    (obj : FacetedObject) : Except String R :=
  if obj.poisoned then Except.error lockReadErr
  else
    match getSlot F obj.facets with
    | none => Except.error (notFoundMsg F)
    | some v =>
      match downcastF F v with
      | none => Except.error downcastErr
      | some d => Except.ok (op d)

/-- Method `FacetedObject::with_facet_mut`: takes the write lock, looks up the
requested type identity, downcasts mutably, and runs the operation; the
operation returns the facet's new state together with its result, and the
new state is stored back in the slot (the mutation through `&mut F`). -/
def FacetedObject.with_facet_mut {R : Type} (F : FacetTy)
    (op : FacetData F → FacetData F × R) (obj : FacetedObject) :
    FacetedObject × Except String R :=
  if obj.poisoned then (obj, Except.error lockWriteErr)
  else
    match getSlot F obj.facets with
    | none => (obj, Except.error (notFoundMsg F))
    | some v =>
      match downcastF F v with
      | none => (obj, Except.error downcastErr)
      | some d =>
        let r := op d
        ({ obj with facets := setSlot F ⟨F, r.1⟩ obj.facets }, Except.ok r.2)

/-- Method `FacetedObject::has_facet`: the source calls
`self.facets.read().unwrap()`, so a poisoned lock makes it panic instead of
returning; the panic is modelled as `none`, a normal return as `some b`. -/
def FacetedObject.has_facet (F : FacetTy) (obj : FacetedObject) : Option Bool :=
  if obj.poisoned then none
  else some (getSlot F obj.facets).isSome

/-- Method `FacetedObject::get_core`: `core_object.downcast_ref::<T>()`,
a tag comparison on the type-erased core payload; no lock is involved. -/
def FacetedObject.get_core (T : CoreTy) (obj : FacetedObject) :
    Option (CoreData T) :=
  if h : obj.core_object.1 = T then some (h ▸ obj.core_object.2) else none

/-- Error message of `AccountFacet::deposit` on a non-positive amount. -/
def depositPositiveErr : String := "Deposit amount must be positive"

/-- Error message of `AccountFacet::withdraw` on a non-positive amount. -/
def withdrawPositiveErr : String := "Withdrawal amount must be positive"

/-- Error message of `AccountFacet::withdraw` on an overdraft. -/
def insufficientFundsErr : String := "Insufficient funds"

/-- Constructor `AccountFacet::new`: zero balance. -/
def AccountFacet.new (account_number : String) : AccountFacet :=
  { balance := 0, account_number := account_number }

/-- Method `AccountFacet::deposit`: rejects non-positive amounts, otherwise
adds the amount and returns the new balance. -/
def AccountFacet.deposit (a : AccountFacet) (amount : ℚ) :
    AccountFacet × Except String ℚ :=
  if amount ≤ 0 then (a, Except.error depositPositiveErr)
  else ({ a with balance := a.balance + amount }, Except.ok (a.balance + amount))

/-- Method `AccountFacet::withdraw`: rejects non-positive amounts and amounts
above the balance, otherwise subtracts and returns the new balance. -/
def AccountFacet.withdraw (a : AccountFacet) (amount : ℚ) :
    AccountFacet × Except String ℚ :=
  if amount ≤ 0 then (a, Except.error withdrawPositiveErr)
  else if amount > a.balance then (a, Except.error insufficientFundsErr)
  else ({ a with balance := a.balance - amount }, Except.ok (a.balance - amount))

/-- Method `AccountFacet::get_balance`. -/
def AccountFacet.get_balance (a : AccountFacet) : ℚ := a.balance

/-- Constructor `AuditFacet::new`: no entries. -/
def AuditFacet.new : AuditFacet := { entries := [] }

/-- Method `AuditFacet::log_operation`: `Vec::push` of a new entry stamped
with the current time (`now` stands for `SystemTime::now()`). -/
def AuditFacet.log_operation (a : AuditFacet) (now : Nat)
    (operation details : String) : AuditFacet :=
  { a with entries := a.entries ++
      [{ timestamp := now, operation := operation, details := details }] }

/-- Method `AuditFacet::get_audit_trail`. -/
def AuditFacet.get_audit_trail (a : AuditFacet) : List AuditEntry := a.entries

/-- Method `AuditFacet::get_recent_entries`: the slice `entries[start..]`
where `start = len - count` if `len > count`, else `0`. -/
def AuditFacet.get_recent_entries (a : AuditFacet) (count : Nat) :
    List AuditEntry :=
  a.entries.drop
    (if a.entries.length > count then a.entries.length - count else 0)

/-- Constructor `PermissionFacet::new`: seeds the permission table from the
role. The `HashMap` literal built by repeated `insert` of distinct keys is
written as the corresponding association list. -/
def PermissionFacet.new (role : String) : PermissionFacet :=
  let permissions : List (String × Bool) :=
    if role = "admin" then
      [("read", true), ("write", true), ("delete", true),
        ("financial_operations", true)]
    else if role = "manager" then
      [("read", true), ("write", true), ("financial_operations", true)]
    else if role = "employee" then
      [("read", true)]
    else []
  { permissions := permissions, role := role }

/-- Method `PermissionFacet::has_permission`:
`permissions.get(p).copied().unwrap_or(false)`. -/
def PermissionFacet.has_permission (f : PermissionFacet) (p : String) : Bool :=
  (f.permissions.lookup p).getD false

/-- Method `PermissionFacet::grant_permission`: `insert(p, true)`; the map's
replace-on-insert is modelled by consing the binding that `lookup` sees
first. -/
def PermissionFacet.grant_permission (f : PermissionFacet) (p : String) :
    PermissionFacet :=
  { f with permissions := (p, true) :: f.permissions }

/-- Method `PermissionFacet::revoke_permission`: `insert(p, false)`. -/
def PermissionFacet.revoke_permission (f : PermissionFacet) (p : String) :
    PermissionFacet :=
  { f with permissions := (p, false) :: f.permissions }

/-- Method `PermissionFacet::get_role`. -/
def PermissionFacet.get_role (f : PermissionFacet) : String := f.role

/-- Capability name checked by the composite financial operation. -/
def financialOperationsCap : String := "financial_operations"

/-- Error message of the composite operation when authorization denies. -/
def accessDeniedMsg : String :=
  "Access denied: insufficient permissions for financial operations"

/-- Placeholder name used when the core payload is not an `Employee`. -/
def unknownName : String := "Unknown"

/-- Success message of the composite financial operation. -/
def completedMsg (name : String) (balance : ℚ) : String :=
  "Financial operation completed for " ++ name ++ ". New balance: "
    ++ toString balance

/-- Details string logged to the audit facet by the composite operation. -/
def newBalanceDetails (balance : ℚ) : String :=
  "New balance: " ++ toString balance

/-- Operation label logged to the audit facet by the composite operation. -/
def financialOperationLabel : String := "financial_operation"

/-- Function `EmployeeOperations::perform_financial_operation`. Step 1 reads
the permission facet (`unwrap_or(false)`: any lookup or lock failure counts
as denied); step 2 reads the employee name from the core payload, falling
back to a placeholder; step 3 mutates the account facet with the
caller-supplied operation, propagating lookup errors (`?`) and then domain
errors (`result?`); step 4 best-effort logs to the audit facet, discarding
its result with `let _ = ...`. The caller's `FnMut(&mut AccountFacet) ->
Result<f64, String>` closure is modelled as returning the account's new
state together with its `Result`. -/
def EmployeeOperations.perform_financial_operation (now : Nat)
    (op : AccountFacet → AccountFacet × Except String ℚ)
    (obj : FacetedObject) : FacetedObject × Except String String :=
  let hasPerm :=
    match FacetedObject.with_facet FacetTy.permission
        (fun p => PermissionFacet.has_permission p financialOperationsCap)
        obj with
    | Except.ok b => b
    | Except.error _ => false
  if hasPerm then
    let employee_name :=
      match FacetedObject.get_core CoreTy.employeeTy obj with
      | some emp => emp.name
      | none => unknownName
    match FacetedObject.with_facet_mut FacetTy.account op obj with
    | (obj1, Except.error e) => (obj1, Except.error e)
    | (obj1, Except.ok result) =>
      match result with
      | Except.error e => (obj1, Except.error e)
      | Except.ok balance =>
        let step3 := FacetedObject.with_facet_mut FacetTy.audit
          (fun a =>
            (AuditFacet.log_operation a now financialOperationLabel
              (newBalanceDetails balance), ()))
          obj1
        (step3.1, Except.ok (completedMsg employee_name balance))
  else (obj, Except.error accessDeniedMsg)

/-- Sample role string used by the witnesses. -/
def roleManager : String := "manager"

/-- Sample role string with no financial capability. -/
def roleEmployee : String := "employee"

/-- Sample core payload used by the witnesses. -/
def sampleEmployee : Employee := ⟨"Alice Johnson", "EMP001", "Engineering"⟩

/-- Sample account facet state used by the witnesses. -/
def sampleAccount : AccountFacet := ⟨100, "ACC001"⟩

/-- Second sample account facet, for the duplicate-attach witness. -/
def sampleAccount2 : AccountFacet := ⟨0, "ACC002"⟩

/-- Empty facet map. -/
def emptyFacets : FacetMap := ⟨none, none, none⟩

/-- Sample type-erased core payload. -/
def sampleCore : CoreVal := ⟨CoreTy.employeeTy, sampleEmployee⟩

/-- Freshly constructed sample object. -/
def sampleObj : FacetedObject := FacetedObject.new sampleCore

/-- Sample object whose registry lock is poisoned. -/
def poisonedSample : FacetedObject := ⟨emptyFacets, sampleCore, true⟩

/-- Sample object holding only an account facet, lock healthy. -/
def accountOnlyObj : FacetedObject :=
  ⟨⟨some ⟨FacetTy.account, sampleAccount⟩, none, none⟩, sampleCore, false⟩

/-- Reading back the slot just written. -/
theorem getSlot_setSlot_self (t : FacetTy) (v : FacetVal) (m : FacetMap) :
    getSlot t (setSlot t v m) = some v := by
  cases t <;> rfl

/-- Writing one slot leaves the others unread. -/
theorem getSlot_setSlot_ne (t u : FacetTy) (v : FacetVal) (m : FacetMap)
    (h : t ≠ u) : getSlot t (setSlot u v m) = getSlot t m := by
  cases t <;> cases u <;> first
    | exact absurd rfl h
    | rfl

/-- Downcasting a value to its own tag succeeds with the payload. -/
theorem downcastF_mk (t : FacetTy) (d : FacetData t) :
    downcastF t ⟨t, d⟩ = some d := by
  simp [downcastF]

/-- C1: for every facet type (the tag of `f`), on an object whose lock is
healthy and where that type is absent, the first `attach_facet` returns
`Ok` and a second `attach_facet` of any value `g` of the same type returns
the already-attached error; the second attempt leaves the object — in
particular the first attached instance sitting in the slot — unchanged. -/
theorem attach_facet_uniqueness (obj : FacetedObject) (f g : FacetVal)
    (hpois : obj.poisoned = false)
    (habs : getSlot f.1 obj.facets = none)
    (htag : g.1 = f.1) :
    (FacetedObject.attach_facet f obj).2 = Except.ok () ∧
    (FacetedObject.attach_facet g (FacetedObject.attach_facet f obj).1).2
      = Except.error (alreadyAttachedMsg f.1) ∧
    (FacetedObject.attach_facet g (FacetedObject.attach_facet f obj).1).1
      = (FacetedObject.attach_facet f obj).1 ∧
    getSlot f.1
      (FacetedObject.attach_facet g
        (FacetedObject.attach_facet f obj).1).1.facets = some f := by
  have h1 : FacetedObject.attach_facet f obj
      = ({ obj with facets := setSlot f.1 f obj.facets }, Except.ok ()) := by
    simp [FacetedObject.attach_facet, hpois, habs]
  have h2 : FacetedObject.attach_facet g
      { obj with facets := setSlot f.1 f obj.facets }
      = ({ obj with facets := setSlot f.1 f obj.facets },
          Except.error (alreadyAttachedMsg f.1)) := by
    simp [FacetedObject.attach_facet, hpois, htag, getSlot_setSlot_self]
  refine ⟨by rw [h1], ?_, ?_, ?_⟩ <;>
    rw [h1] <;> simp [h2, getSlot_setSlot_self]

/-- C1 witness: attaching an account facet to a fresh object succeeds and a
second account facet is rejected without disturbing the first. -/
theorem attach_facet_uniqueness_witness :
    (FacetedObject.attach_facet ⟨FacetTy.account, sampleAccount⟩ sampleObj).2
      = Except.ok () ∧
    (FacetedObject.attach_facet ⟨FacetTy.account, sampleAccount2⟩
      (FacetedObject.attach_facet ⟨FacetTy.account, sampleAccount⟩
        sampleObj).1).2
      = Except.error (alreadyAttachedMsg FacetTy.account) ∧
    (FacetedObject.attach_facet ⟨FacetTy.account, sampleAccount2⟩
      (FacetedObject.attach_facet ⟨FacetTy.account, sampleAccount⟩
        sampleObj).1).1
      = (FacetedObject.attach_facet ⟨FacetTy.account, sampleAccount⟩
          sampleObj).1 ∧
    getSlot FacetTy.account
      (FacetedObject.attach_facet ⟨FacetTy.account, sampleAccount2⟩
        (FacetedObject.attach_facet ⟨FacetTy.account, sampleAccount⟩
          sampleObj).1).1.facets
      = some ⟨FacetTy.account, sampleAccount⟩ :=
  attach_facet_uniqueness sampleObj ⟨FacetTy.account, sampleAccount⟩
    ⟨FacetTy.account, sampleAccount2⟩ rfl rfl rfl

/-- C3: on a healthy lock and an absent facet type, `with_facet` and
`with_facet_mut` both return the not-found error; the results do not depend
on the supplied operations (which are therefore never invoked), `with_facet`
cannot modify the object by its type, and `with_facet_mut` returns the
object unchanged. -/
theorem with_facet_not_found {R : Type} (F : FacetTy) (obj : FacetedObject)
    (opr : FacetData F → R) (opm : FacetData F → FacetData F × R)
    (hpois : obj.poisoned = false)
    (habs : getSlot F obj.facets = none) :
    FacetedObject.with_facet F opr obj = Except.error (notFoundMsg F) ∧
    FacetedObject.with_facet_mut F opm obj
      = (obj, Except.error (notFoundMsg F)) := by
  constructor <;>
    simp [FacetedObject.with_facet, FacetedObject.with_facet_mut, hpois, habs]

/-- C3 witness: audit-facet access on an object holding only an account
facet fails with the not-found error and leaves the object unchanged. -/
theorem with_facet_not_found_witness :
    FacetedObject.with_facet FacetTy.audit (fun _ => true) accountOnlyObj
      = Except.error (notFoundMsg FacetTy.audit) ∧
    FacetedObject.with_facet_mut FacetTy.audit (fun a => (a, true))
      accountOnlyObj
      = (accountOnlyObj, Except.error (notFoundMsg FacetTy.audit)) :=
  with_facet_not_found FacetTy.audit accountOnlyObj (fun _ => true)
    (fun a => (a, true)) rfl rfl

/-- C4, code evaluated at the failing input: on an object whose lock is
poisoned, `has_facet` does not return a boolean at all — the source calls
`.unwrap()` on the lock result, so it panics (modelled as `none`) for every
facet type, while on a healthy lock it does return presence. The claim
(and §7 of the spec) requires a boolean value even under poisoning, as the
sibling methods do via `map_err`; the `unwrap` contradicts that. -/
theorem has_facet_poisoned_lock_panics :
    FacetedObject.has_facet FacetTy.account poisonedSample = none ∧
    FacetedObject.has_facet FacetTy.audit poisonedSample = none ∧
    FacetedObject.has_facet FacetTy.permission poisonedSample = none ∧
    FacetedObject.has_facet FacetTy.account accountOnlyObj = some true ∧
    FacetedObject.has_facet FacetTy.audit accountOnlyObj = some false :=
  ⟨rfl, rfl, rfl, rfl, rfl⟩

/-- C6: `withdraw` errors exactly on non-positive amounts or overdrafts and
then leaves the balance (and the whole facet) unchanged, otherwise subtracts
the amount and returns the new balance; `deposit` errors exactly on
non-positive amounts (facet unchanged), otherwise adds the amount and
returns the new balance. -/
theorem account_deposit_withdraw_spec (a : AccountFacet) (amount : ℚ) :
    (amount ≤ 0 → AccountFacet.withdraw a amount
      = (a, Except.error withdrawPositiveErr)) ∧
    (0 < amount → a.balance < amount → AccountFacet.withdraw a amount
      = (a, Except.error insufficientFundsErr)) ∧
    (0 < amount → amount ≤ a.balance → AccountFacet.withdraw a amount
      = ({ a with balance := a.balance - amount },
          Except.ok (a.balance - amount))) ∧
    (amount ≤ 0 → AccountFacet.deposit a amount
      = (a, Except.error depositPositiveErr)) ∧
    (0 < amount → AccountFacet.deposit a amount
      = ({ a with balance := a.balance + amount },
          Except.ok (a.balance + amount))) := by
  refine ⟨fun h => ?_, fun h1 h2 => ?_, fun h1 h2 => ?_, fun h => ?_,
    fun h => ?_⟩
  · simp [AccountFacet.withdraw, h]
  · simp [AccountFacet.withdraw, not_le.mpr h1, h2]
  · simp [AccountFacet.withdraw, not_le.mpr h1, not_lt.mpr h2]
  · simp [AccountFacet.deposit, h]
  · simp [AccountFacet.deposit, not_le.mpr h]

/-- C6 witness: on a balance of 100, withdrawing -1 and 200 fail without
changing the state, withdrawing 30 leaves 70, depositing 0 fails, and
depositing 50 leaves 150. -/
theorem account_deposit_withdraw_spec_witness :
    AccountFacet.withdraw sampleAccount (-1)
      = (sampleAccount, Except.error withdrawPositiveErr) ∧
    AccountFacet.withdraw sampleAccount 200
      = (sampleAccount, Except.error insufficientFundsErr) ∧
    AccountFacet.withdraw sampleAccount 30
      = ({ sampleAccount with balance := sampleAccount.balance - 30 },
          Except.ok (sampleAccount.balance - 30)) ∧
    AccountFacet.deposit sampleAccount 0
      = (sampleAccount, Except.error depositPositiveErr) ∧
    AccountFacet.deposit sampleAccount 50
      = ({ sampleAccount with balance := sampleAccount.balance + 50 },
          Except.ok (sampleAccount.balance + 50)) :=
  ⟨(account_deposit_withdraw_spec sampleAccount (-1)).1 (by norm_num),
   (account_deposit_withdraw_spec sampleAccount 200).2.1 (by norm_num)
     (by norm_num [sampleAccount]),
   (account_deposit_withdraw_spec sampleAccount 30).2.2.1 (by norm_num)
     (by norm_num [sampleAccount]),
   (account_deposit_withdraw_spec sampleAccount 0).2.2.2.1 le_rfl,
   (account_deposit_withdraw_spec sampleAccount 50).2.2.2.2 (by norm_num)⟩

/-- C7: `get_core` returns the core payload exactly when the requested type
identity equals the payload's static type, and `none` for every other
requested type; it is a total function of the object alone (no lock, no
failure). -/
theorem get_core_exact_type :
    (∀ (T : CoreTy) (d : CoreData T) (m : FacetMap) (b : Bool),
      FacetedObject.get_core T ⟨m, ⟨T, d⟩, b⟩ = some d) ∧
    (∀ (T : CoreTy) (obj : FacetedObject), obj.core_object.1 ≠ T →
      FacetedObject.get_core T obj = none) := by
  constructor
  · intro T d m b
    simp [FacetedObject.get_core]
  · intro T obj h
    simp [FacetedObject.get_core, h]

/-- C7 witness: requesting the employee type on an employee-cored object
returns the payload; requesting any other type returns `none`. -/
theorem get_core_exact_type_witness :
    FacetedObject.get_core CoreTy.employeeTy
      ⟨emptyFacets, ⟨CoreTy.employeeTy, sampleEmployee⟩, false⟩
      = some sampleEmployee ∧
    FacetedObject.get_core CoreTy.natTy sampleObj = none ∧
    FacetedObject.get_core CoreTy.textTy sampleObj = none :=
  ⟨get_core_exact_type.1 CoreTy.employeeTy sampleEmployee emptyFacets false,
   get_core_exact_type.2 CoreTy.natTy sampleObj (by decide),
   get_core_exact_type.2 CoreTy.textTy sampleObj (by decide)⟩

/-- Rewriting `get_recent_entries` as Mathlib's take-from-the-right. -/
theorem get_recent_entries_eq_rtake (a : AuditFacet) (n : Nat) :
    AuditFacet.get_recent_entries a n = a.entries.rtake n := by
  unfold AuditFacet.get_recent_entries List.rtake
  split
  · rfl
  · rw [Nat.sub_eq_zero_of_le (le_of_not_lt (by assumption))]

/-- C8: `get_recent_entries n` is the suffix of the last `n` entries in
insertion order (the reversal of the first `n` of the reversed log); when
the log has at most `n` entries it is the whole log, and when it has at
least `n` entries the result has length exactly `n`. -/
theorem get_recent_entries_spec (a : AuditFacet) (n : Nat) :
    AuditFacet.get_recent_entries a n
      = (a.entries.reverse.take n).reverse ∧
    (a.entries.length ≤ n →
      AuditFacet.get_recent_entries a n = a.entries) ∧
    (n ≤ a.entries.length →
      (AuditFacet.get_recent_entries a n).length = n) := by
  refine ⟨?_, fun h => ?_, fun h => ?_⟩
  · rw [get_recent_entries_eq_rtake]
    exact List.rtake_eq_reverse_take_reverse a.entries n
  · rw [get_recent_entries_eq_rtake]
    unfold List.rtake
    rw [Nat.sub_eq_zero_of_le h, List.drop_zero]
  · rw [get_recent_entries_eq_rtake]
    unfold List.rtake
    rw [List.length_drop, Nat.sub_sub_self h]

/-- Sample audit log with three entries, for the C8 witness. -/
def auditSample : AuditFacet :=
  ⟨[⟨1, "op1", "d1"⟩, ⟨2, "op2", "d2"⟩, ⟨3, "op3", "d3"⟩]⟩

/-- C8 witness: on a three-entry log, asking for two entries returns the
last two in order, asking for five returns all three, and the two-entry
result has length two. -/
theorem get_recent_entries_spec_witness :
    AuditFacet.get_recent_entries auditSample 2
      = (auditSample.entries.reverse.take 2).reverse ∧
    AuditFacet.get_recent_entries auditSample 5 = auditSample.entries ∧
    (AuditFacet.get_recent_entries auditSample 2).length = 2 :=
  ⟨(get_recent_entries_spec auditSample 2).1,
   (get_recent_entries_spec auditSample 5).2.1 (by decide),
   (get_recent_entries_spec auditSample 2).2.2 (by decide)⟩

/-- C9: whatever the facet's prior state, `has_permission p` answers `true`
right after `grant_permission p` and `false` right after
`revoke_permission p` — the most recent insert for a name wins, and a
never-granted name stays denied after a revoke. -/
theorem grant_revoke_has_permission (f : PermissionFacet) (p : String) :
    PermissionFacet.has_permission (PermissionFacet.grant_permission f p) p
      = true ∧
    PermissionFacet.has_permission (PermissionFacet.revoke_permission f p) p
      = false := by
  constructor <;>
    simp [PermissionFacet.has_permission, PermissionFacet.grant_permission,
      PermissionFacet.revoke_permission, List.lookup]

/-- Permission facet seeded with the manager role. -/
def samplePermManager : PermissionFacet := PermissionFacet.new roleManager

/-- Permission facet seeded with the employee role (no financial
capability). -/
def samplePermEmployee : PermissionFacet := PermissionFacet.new roleEmployee

/-- Object with an account facet and an employee-role permission facet. -/
def objEmployeePerm : FacetedObject :=
  ⟨⟨some ⟨FacetTy.account, sampleAccount⟩, none,
      some ⟨FacetTy.permission, samplePermEmployee⟩⟩, sampleCore, false⟩

/-- Object with an account facet and a manager-role permission facet, no
audit facet. -/
def objPermAcc : FacetedObject :=
  ⟨⟨some ⟨FacetTy.account, sampleAccount⟩, none,
      some ⟨FacetTy.permission, samplePermManager⟩⟩, sampleCore, false⟩

/-- C2: when the authorization step denies — the permission facet is absent,
or present but without the financial-operations capability — the composite
operation returns the access-denied error and the whole object, hence in
particular the account facet's state and the audit log, is exactly the
input object. -/
theorem perform_denied_frame (now : Nat)
    (op : AccountFacet → AccountFacet × Except String ℚ)
    (obj : FacetedObject)
    (hperm : getSlot FacetTy.permission obj.facets = none ∨
      ∃ p : PermissionFacet,
        getSlot FacetTy.permission obj.facets
          = some ⟨FacetTy.permission, p⟩ ∧
        PermissionFacet.has_permission p financialOperationsCap = false) :
    EmployeeOperations.perform_financial_operation now op obj
      = (obj, Except.error accessDeniedMsg) := by
  have hfalse : (match FacetedObject.with_facet FacetTy.permission
      (fun p => PermissionFacet.has_permission p financialOperationsCap)
      obj with
    | Except.ok b => b
    | Except.error _ => false) = false := by
    cases hp : obj.poisoned with
    | true => simp [FacetedObject.with_facet, hp]
    | false =>
      rcases hperm with h | ⟨p, hs, hf⟩
      · simp [FacetedObject.with_facet, hp, h]
      · simp [FacetedObject.with_facet, hp, hs, downcastF_mk, hf]
  simp only [EmployeeOperations.perform_financial_operation]
  rw [hfalse]
  simp

/-- C2 witness: with an employee-role permission facet (which lacks the
financial capability) the composite operation is denied and returns the
object unchanged. -/
theorem perform_denied_frame_witness :
    EmployeeOperations.perform_financial_operation 0
      (fun acc => AccountFacet.deposit acc 10) objEmployeePerm
      = (objEmployeePerm, Except.error accessDeniedMsg) :=
  perform_denied_frame 0 (fun acc => AccountFacet.deposit acc 10)
    objEmployeePerm (Or.inr ⟨samplePermEmployee, rfl, rfl⟩)

/-- Read-only facet access only depends on the lock state and the slot of
the requested type. -/
theorem with_facet_congr {R : Type} (F : FacetTy) (op : FacetData F → R)
    (o1 o2 : FacetedObject)
    (h1 : o1.poisoned = o2.poisoned)
    (h2 : getSlot F o1.facets = getSlot F o2.facets) :
    FacetedObject.with_facet F op o1 = FacetedObject.with_facet F op o2 := by
  unfold FacetedObject.with_facet
  rw [h1, h2]

/-- The result component of a mutable facet access only depends on the lock
state and the slot of the requested type. -/
theorem with_facet_mut_snd_congr {R : Type} (F : FacetTy)
    (op : FacetData F → FacetData F × R) (o1 o2 : FacetedObject)
    (h1 : o1.poisoned = o2.poisoned)
    (h2 : getSlot F o1.facets = getSlot F o2.facets) :
    (FacetedObject.with_facet_mut F op o1).2
      = (FacetedObject.with_facet_mut F op o2).2 := by
  unfold FacetedObject.with_facet_mut
  rw [h1, h2]
  cases hp : o2.poisoned with
  | true => rfl
  | false =>
    simp only [Bool.false_eq_true, if_false]
    cases hv : getSlot F o2.facets with
    | none => rfl
    | some v =>
      cases hd : downcastF F v with
      | none => simp [hd]
      | some d => simp [hd]

/-- The result component of the composite financial operation only depends
on the lock state, the permission and account slots, and the core payload —
in particular not on the audit slot. -/
theorem perform_snd_congr (now : Nat)
    (op : AccountFacet → AccountFacet × Except String ℚ)
    (o1 o2 : FacetedObject)
    (h1 : o1.poisoned = o2.poisoned)
    (h2 : getSlot FacetTy.permission o1.facets
      = getSlot FacetTy.permission o2.facets)
    (h3 : getSlot FacetTy.account o1.facets
      = getSlot FacetTy.account o2.facets)
    (h4 : o1.core_object = o2.core_object) :
    (EmployeeOperations.perform_financial_operation now op o1).2
      = (EmployeeOperations.perform_financial_operation now op o2).2 := by
  have hw := with_facet_congr FacetTy.permission
    (fun p => PermissionFacet.has_permission p financialOperationsCap)
    o1 o2 h1 h2
  have hg : FacetedObject.get_core CoreTy.employeeTy o1
      = FacetedObject.get_core CoreTy.employeeTy o2 := by
    unfold FacetedObject.get_core
    rw [h4]
  have hm := with_facet_mut_snd_congr FacetTy.account op o1 o2 h1 h3
  simp only [EmployeeOperations.perform_financial_operation]
  rw [hw, hg]
  cases hwf : FacetedObject.with_facet FacetTy.permission
      (fun p => PermissionFacet.has_permission p financialOperationsCap)
      o2 with
  | error e => simp
  | ok b =>
    cases b with
    | false => simp
    | true =>
      simp only [if_true]
      cases e1 : FacetedObject.with_facet_mut FacetTy.account op o1 with
      | mk o1x r1 =>
        cases e2 : FacetedObject.with_facet_mut FacetTy.account op o2 with
        | mk o2x r2 =>
          rw [e1, e2] at hm
          simp only at hm
          subst hm
          cases r1 with
          | error e => simp
          | ok result => cases result <;> simp

/-- Replacing the facet map of an object, as done by a successful insert
under the write lock. -/
def setFacets (obj : FacetedObject) (m : FacetMap) : FacetedObject :=
  { obj with facets := m }

/-- C5: on an object with no audit facet, attaching any audit facet state
does not change the success-or-error result of the composite financial
operation — the primary outcome never depends on the audit facet, whose
best-effort logging result is discarded. -/
theorem perform_result_ignores_audit (now : Nat)
    (op : AccountFacet → AccountFacet × Except String ℚ)
    (obj : FacetedObject) (a : AuditFacet)
    (hno : getSlot FacetTy.audit obj.facets = none) :
    (EmployeeOperations.perform_financial_operation now op
      (setFacets obj
        (setSlot FacetTy.audit ⟨FacetTy.audit, a⟩ obj.facets))).2
      = (EmployeeOperations.perform_financial_operation now op obj).2 :=
  perform_snd_congr now op _ obj rfl
    (getSlot_setSlot_ne FacetTy.permission FacetTy.audit
      ⟨FacetTy.audit, a⟩ obj.facets (by decide))
    (getSlot_setSlot_ne FacetTy.account FacetTy.audit
      ⟨FacetTy.audit, a⟩ obj.facets (by decide))
    rfl

/-- C5 witness: a guarded deposit on a manager-authorized account gives the
same result whether or not an empty audit facet is attached. -/
theorem perform_result_ignores_audit_witness :
    (EmployeeOperations.perform_financial_operation 0
      (fun acc => AccountFacet.deposit acc 10)
      (setFacets objPermAcc
        (setSlot FacetTy.audit ⟨FacetTy.audit, AuditFacet.new⟩
          objPermAcc.facets))).2
      = (EmployeeOperations.perform_financial_operation 0
          (fun acc => AccountFacet.deposit acc 10) objPermAcc).2 :=
  perform_result_ignores_audit 0 (fun acc => AccountFacet.deposit acc 10)
    objPermAcc AuditFacet.new rfl

/-- C10: the composite operation does not require an `Employee` core. When
the core payload has any other static type, authorization grants, the
account facet is present, and the caller's mutation succeeds with a new
balance, the operation still succeeds and reports the placeholder name in
its message. -/
theorem perform_unknown_core_name (now : Nat)
    (op : AccountFacet → AccountFacet × Except String ℚ)
    (obj : FacetedObject) (p : PermissionFacet) (acc acc2 : AccountFacet)
    (bal : ℚ)
    (hcore : obj.core_object.1 ≠ CoreTy.employeeTy)
    (hpois : obj.poisoned = false)
    (hperm : getSlot FacetTy.permission obj.facets
      = some ⟨FacetTy.permission, p⟩)
    (hcap : PermissionFacet.has_permission p financialOperationsCap = true)
    (hacc : getSlot FacetTy.account obj.facets = some ⟨FacetTy.account, acc⟩)
    (hop : op acc = (acc2, Except.ok bal)) :
    (EmployeeOperations.perform_financial_operation now op obj).2
      = Except.ok (completedMsg unknownName bal) := by
  have htrue : FacetedObject.with_facet FacetTy.permission
      (fun q => PermissionFacet.has_permission q financialOperationsCap) obj
      = Except.ok true := by
    simp [FacetedObject.with_facet, hpois, hperm, downcastF_mk, hcap]
  have hname : FacetedObject.get_core CoreTy.employeeTy obj = none := by
    simp [FacetedObject.get_core, hcore]
  have hmut : FacetedObject.with_facet_mut FacetTy.account op obj
      = (setFacets obj
          (setSlot FacetTy.account ⟨FacetTy.account, acc2⟩ obj.facets),
          Except.ok (Except.ok bal)) := by
    simp [FacetedObject.with_facet_mut, setFacets, hpois, hacc,
      downcastF_mk, hop]
  simp [EmployeeOperations.perform_financial_operation, htrue, hname, hmut]

/-- Object with a non-employee core payload (a bare number), an account
facet, and a manager-role permission facet. -/
def objNatCore : FacetedObject :=
  ⟨⟨some ⟨FacetTy.account, sampleAccount⟩, none,
      some ⟨FacetTy.permission, samplePermManager⟩⟩,
    ⟨CoreTy.natTy, 42⟩, false⟩

/-- C10 witness: a guarded deposit of 1000 on a number-cored object succeeds
and its message carries the placeholder name. -/
theorem perform_unknown_core_name_witness :
    (EmployeeOperations.perform_financial_operation 0
      (fun acc => AccountFacet.deposit acc 1000) objNatCore).2
      = Except.ok (completedMsg unknownName (sampleAccount.balance + 1000)) :=
  perform_unknown_core_name 0 (fun acc => AccountFacet.deposit acc 1000)
    objNatCore samplePermManager sampleAccount
    { sampleAccount with balance := sampleAccount.balance + 1000 }
    (sampleAccount.balance + 1000) (by decide) rfl rfl rfl rfl
    (by norm_num [AccountFacet.deposit])
